import Mathlib

/-!
Verification of the SLA-checking utility `check_slas.py`.

The script reads one JTL row per sample, accumulates counters and extrema in a
single pass, derives error-rate / latency / throughput / percentile metrics,
evaluates four fixed SLA rules, writes a `summary.json` artifact and exits with
status 0 or 1.  This file embeds that program shallowly:

* Python `int(...)` applied to a CSV field is `pyParseInt` (an `Option Int`:
  `none` models the uncaught `ValueError` raised on non-numeric text);
* Python floats are modelled as exact rationals `ℚ`; `round` (half-to-even,
  Python's semantics) is `pyRound`, `round(x, 2)` is `round2`, and the
  `"%.2f"` formatting used in the reason strings is `format2`;
* the per-row loop body is `step`, the whole loop is `runLoop`
  (`Option`-valued: `none` means the run died on a malformed numeric field);
* the `float('inf')` / `float('-inf')` sentinels of `min_start_time` /
  `max_end_time` are the `none` case of an `Option Int`;
* the process as a whole (file lookup, loop, `total_samples == 0` guard,
  report construction, summary write, `sys.exit`) is `runCheckSlas`, with the
  success of the `summary.json` write abstracted as a boolean input since the
  verdict must not depend on it;
* the module-level threshold constants are gathered in a `Thresholds` record
  whose default `defaultThresholds` is exactly the constants of the script.

The wall-clock `timestamp` field of the summary and the environment-derived
metadata (`test_name`, `threads`, `rampup`, `duration`, `repo`, `jmx`) live
outside the evaluation proper and are not part of the embedding.
-/

namespace CheckSlas

/-- ASCII lower-casing of one character, as Python's `str.lower` acts on the
ASCII range (the only range the script's inputs use). -/
def lowerChar (c : Char) : Char :=
  if 'A' ≤ c ∧ c ≤ 'Z' then Char.ofNat (c.toNat + 32) else c

/-- Python `s.lower()` (restricted to ASCII case mapping). -/
def pyLower (s : String) : String :=
  ⟨s.data.map lowerChar⟩

/-- Python `s.startswith(pre)`. -/
def pyStartsWith (s pre : String) : Bool :=
  pre.data.isPrefixOf s.data

/-- Numeric value of a list of decimal digit characters. -/
def digitsVal (cs : List Char) : Nat :=
  cs.foldl (fun a c => 10 * a + (c.toNat - 48)) 0

/-- Whitespace recognised by Python's `int(...)` stripping. -/
def isPySpace (c : Char) : Bool :=
  c = ' ' ∨ c = '\t' ∨ c = '\n' ∨ c = '\r'

/-- Python `int(s)` on a string: strip surrounding whitespace, optional sign,
then a non-empty run of decimal digits; any other shape raises `ValueError`,
modelled as `none`.  (Python also accepts underscore digit separators and
non-ASCII digits; the script's inputs never use them.) -/
def pyParseInt (s : String) : Option Int :=
  let t := s.data.dropWhile isPySpace
  let t := (t.reverse.dropWhile isPySpace).reverse
  match t with
  | [] => none
  | c :: rest =>
    if c = '-' then
      if rest ≠ [] ∧ rest.all Char.isDigit then some (-(digitsVal rest : Int)) else none
    else if c = '+' then
      if rest ≠ [] ∧ rest.all Char.isDigit then some ((digitsVal rest : Int)) else none
    else
      if t.all Char.isDigit then some ((digitsVal t : Int)) else none

/-- Python `round(q)` (no digits argument): round half to even, returning an
integer. -/
def pyRound (q : ℚ) : Int :=
  if q - ⌊q⌋ < 1/2 then ⌊q⌋
  else if 1/2 < q - ⌊q⌋ then ⌊q⌋ + 1
  else if 2 ∣ ⌊q⌋ then ⌊q⌋ else ⌊q⌋ + 1

/-- Python `round(q, 2)`: round half to even at two decimal places. -/
def round2 (q : ℚ) : ℚ :=
  (pyRound (q * 100) : ℚ) / 100

/-- Decimal digit characters of a positive number, most significant first. -/
def natDigits : Nat → List Char
  | 0 => []
  | n + 1 => natDigits ((n + 1) / 10) ++ [Char.ofNat (48 + (n + 1) % 10)]
decreasing_by exact Nat.div_lt_self (Nat.succ_pos n) (by omega)

/-- Decimal rendering of a natural number. -/
def natRepr (n : Nat) : String :=
  if n = 0 then "0" else ⟨natDigits n⟩

/-- Decimal rendering of an integer (Python `str` / `{i}` formatting). -/
def intRepr (i : Int) : String :=
  if i < 0 then "-" ++ natRepr i.natAbs else natRepr i.natAbs

/-- Python `f"{q:.2f}"`: fixed-point rendering with two decimals, rounding
half to even. -/
def format2 (q : ℚ) : String :=
  let c := pyRound (q * 100)
  (if c < 0 then "-" else "")
    ++ natRepr (c.natAbs / 100) ++ "."
    ++ (if c.natAbs % 100 < 10 then "0" else "") ++ natRepr (c.natAbs % 100)

/-- Python list subscript `l[i]`: negative indices count from the end; an index
out of range raises `IndexError`, modelled as `none`. -/
def pyListGet (l : List Int) (i : Int) : Option Int :=
  if 0 ≤ i then l.get? i.toNat
  else if 0 ≤ (l.length : Int) + i then l.get? ((l.length : Int) + i).toNat
  else none

/-- One parsed CSV row as `csv.DictReader` hands it to the loop: each field is
present with a string value, or absent (`none`) when the header lacks the
column, in which case `row.get(...)` falls back to the written default. -/
structure Row where
  success : Option String
  elapsed : Option String
  timeStamp : Option String
  responseCode : Option String
deriving DecidableEq

/-- `row.get('success', 'false')`. -/
def rowSuccess (r : Row) : String :=
  r.success.getD "false"

/-- `int(row.get('elapsed', 0))`: a missing field defaults to the integer `0`;
a present field is parsed by Python `int`, raising (`none`) on bad text. -/
def rowElapsed (r : Row) : Option Int :=
  match r.elapsed with
  | none => some 0
  | some s => pyParseInt s

/-- `int(row.get('timeStamp', 0))`, with the same default-versus-parse split. -/
def rowTimeStamp (r : Row) : Option Int :=
  match r.timeStamp with
  | none => some 0
  | some s => pyParseInt s

/-- `row.get('responseCode', '')`. -/
def rowResponseCode (r : Row) : String :=
  r.responseCode.getD ""

/-- Threshold configuration.  In the script these are the module constants
`MAX_ERROR_RATE_TOTAL = 1.0`, `MAX_AVG_LATENCY = 3000`, `MIN_TPS = 5`; they are
gathered here into one record so the evaluation is a function of them. -/
structure Thresholds where
  max_error_rate_total : ℚ
  max_avg_latency : Int
  min_tps : Int
deriving DecidableEq

/-- The constants of `check_slas.py`. -/
def defaultThresholds : Thresholds :=
  { max_error_rate_total := 1, max_avg_latency := 3000, min_tps := 5 }

/-- The loop state of `check_slas`: counters, latency sum, running extrema and
the retained latency list.  `none` in `min_start_time` / `max_end_time` models
the untouched `float('inf')` / `float('-inf')` sentinels. -/
structure Agg where
  total_samples : Nat
  total_errors : Nat
  total_latency : Int
  min_start_time : Option Int
  max_end_time : Option Int
  http_500 : Nat
  latencies_ms : List Int
deriving DecidableEq

/-- The state before the first row. -/
def initAgg : Agg :=
  { total_samples := 0, total_errors := 0, total_latency := 0
    min_start_time := none, max_end_time := none
    http_500 := 0, latencies_ms := [] }

/-- The body of `for row in reader:` (lines 42-67 of the script).  `elapsed`
and `timeStamp` go through Python `int`; a `ValueError` there aborts the whole
run (`none`).  Otherwise every counter update of the source is performed. -/
def step (a : Agg) (r : Row) : Option Agg :=
  match rowElapsed r, rowTimeStamp r with
  | some elapsed, some timestamp =>
    let success := rowSuccess r
    let response_code := rowResponseCode r
    let current_start_time := timestamp
    let current_end_time := timestamp + elapsed
    some
      { total_samples := a.total_samples + 1
        total_latency := a.total_latency + elapsed
        latencies_ms := a.latencies_ms ++ [elapsed]
        min_start_time :=
          some (match a.min_start_time with
                | none => current_start_time
                | some m => if current_start_time < m then current_start_time else m)
        max_end_time :=
          some (match a.max_end_time with
                | none => current_end_time
                | some m => if current_end_time > m then current_end_time else m)
        total_errors :=
          if pyLower success ≠ "true" then a.total_errors + 1 else a.total_errors
        http_500 :=
          if pyStartsWith response_code "5" then a.http_500 + 1 else a.http_500 }
  | _, _ => none

/-- The whole reader loop over the parsed rows. -/
def runLoop (rows : List Row) : Option Agg :=
  rows.foldlM step initAgg

/-- Python `sorted(...)` on the latency list (ascending). -/
def sortAsc (l : List Int) : List Int :=
  List.insertionSort (· ≤ ·) l

/-- The inner `percentile(p)` of the script, over the already-sorted latency
list: `0.0` for an empty list, otherwise the element at index
`int(round(p * (n - 1)))` cast to float; an out-of-range index would raise
(`none`), exactly as the unclamped subscript of the source would. -/
def percentile (sortedLats : List Int) (p : ℚ) : Option ℚ :=
  if sortedLats.length = 0 then some 0
  else
    (pyListGet sortedLats (pyRound (p * ((sortedLats.length : ℚ) - 1)))).map
      (fun v => (v : ℚ))

/-- `error_rate = (total_errors / total_samples) * 100.0`. -/
def errorRateOf (a : Agg) : ℚ :=
  ((a.total_errors : ℚ) / (a.total_samples : ℚ)) * 100

/-- `avg_latency = total_latency / total_samples`. -/
def avgLatencyOf (a : Agg) : ℚ :=
  (a.total_latency : ℚ) / (a.total_samples : ℚ)

/-- `total_duration_ms = max_end_time - min_start_time`.  The sentinel case
(no sample ever updated the extrema) is unreachable past the `NoSamples`
guard; it is mapped to `0`, which produces the same downstream
`duration_s = 0`, `tps = 0` as the script's `inf` arithmetic would. -/
def durationMsOf (a : Agg) : ℚ :=
  match a.max_end_time, a.min_start_time with
  | some mx, some mn => (mx : ℚ) - (mn : ℚ)
  | _, _ => 0

/-- `total_duration_s = total_duration_ms / 1000.0 if total_duration_ms > 0 else 0.0`. -/
def durationSOf (a : Agg) : ℚ :=
  if durationMsOf a > 0 then durationMsOf a / 1000 else 0

/-- `tps = total_samples / total_duration_s if total_duration_s > 0 else 0.0`. -/
def tpsOf (a : Agg) : ℚ :=
  if durationSOf a > 0 then (a.total_samples : ℚ) / durationSOf a else 0

/-- The SLA evaluation block (lines 110-153): `slas_passed` starts `True` and
each of the four rules, in order, sets it to `False` when its bound is
violated.  Returns the final flag. -/
def slaPassedCalc (th : Thresholds) (http_500 : Nat)
    (error_rate avg_latency tps : ℚ) : Bool :=
  let p0 := true
  let p1 := if http_500 > 0 then false else p0
  let p2 := if error_rate > th.max_error_rate_total then false else p1
  let p3 := if avg_latency > (th.max_avg_latency : ℚ) then false else p2
  let p4 := if tps < (th.min_tps : ℚ) then false else p3
  p4

/-- The four reason strings appended by the SLA evaluation block, in rule
order, with the `"%.2f"` interpolations of the source. -/
def slaReasonsCalc (th : Thresholds) (http_500 : Nat)
    (error_rate avg_latency tps : ℚ) : List String :=
  [ if http_500 > 0 then
      "Se detectaron " ++ natRepr http_500 ++ " respuestas HTTP 5xx (no se permiten)."
    else
      "Sin respuestas HTTP 5xx (OK).",
    if error_rate > th.max_error_rate_total then
      "Tasa de error global " ++ format2 error_rate ++ "% > límite "
        ++ format2 th.max_error_rate_total ++ "%."
    else
      "Tasa de error global " ++ format2 error_rate ++ "% ≤ límite "
        ++ format2 th.max_error_rate_total ++ "% (OK).",
    if avg_latency > (th.max_avg_latency : ℚ) then
      "Latencia promedio " ++ format2 avg_latency ++ " ms > límite "
        ++ intRepr th.max_avg_latency ++ " ms."
    else
      "Latencia promedio " ++ format2 avg_latency ++ " ms ≤ límite "
        ++ intRepr th.max_avg_latency ++ " ms (OK).",
    if tps < (th.min_tps : ℚ) then
      "TPS " ++ format2 tps ++ " < mínimo requerido " ++ intRepr th.min_tps ++ "."
    else
      "TPS " ++ format2 tps ++ " ≥ mínimo requerido " ++ intRepr th.min_tps ++ " (OK)." ]

/-- The derived result of one evaluation: every metric of the summary that
depends on the samples and thresholds, the verdict and the reason strings.
The raw (unrounded) metrics are kept alongside their two-decimal summary
forms because the rules compare the raw values. -/
structure SlaReport where
  samples_total : Nat
  samples_ok : Nat
  samples_ko : Nat
  http_500 : Nat
  error_rate : ℚ
  avg_latency : ℚ
  duration_s : ℚ
  tps : ℚ
  p90 : ℚ
  p95 : ℚ
  error_pct : ℚ
  tps_rounded : ℚ
  avg_rt_ms : ℚ
  p90_rt_ms : ℚ
  p95_rt_ms : ℚ
  sla_passed : Bool
  sla_reasons : List String
deriving DecidableEq

/-- Lines 77-153 and the summary fields of lines 197-213: derive the metrics
from the final aggregate and evaluate the SLA rules.  `none` models the
(unreachable for the script's `p = 0.90, 0.95`) `IndexError` of the percentile
subscript. -/
def mkReport (th : Thresholds) (a : Agg) : Option SlaReport :=
  let error_rate := errorRateOf a
  let avg_latency := avgLatencyOf a
  let tps := tpsOf a
  let sortedLats := sortAsc a.latencies_ms
  match percentile sortedLats (9/10), percentile sortedLats (19/20) with
  | some p90, some p95 =>
    some
      { samples_total := a.total_samples
        samples_ok := a.total_samples - a.total_errors
        samples_ko := a.total_errors
        http_500 := a.http_500
        error_rate := error_rate
        avg_latency := avg_latency
        duration_s := durationSOf a
        tps := tps
        p90 := p90
        p95 := p95
        error_pct := round2 error_rate
        tps_rounded := round2 tps
        avg_rt_ms := round2 avg_latency
        p90_rt_ms := round2 p90
        p95_rt_ms := round2 p95
        sla_passed := slaPassedCalc th a.http_500 error_rate avg_latency tps
        sla_reasons := slaReasonsCalc th a.http_500 error_rate avg_latency tps }
  | _, _ => none

/-- Observable outcome of one invocation of the script. -/
inductive RunResult where
  | sourceNotFound
  | crash
  | noSamples
  | done (report : SlaReport) (summaryWritten : Bool)
deriving DecidableEq

/-- The whole of `check_slas`:  `FileNotFoundError` → error exit; a malformed
numeric field → uncaught `ValueError`; `total_samples == 0` → `NoSamples`
exit; otherwise derive the report.  Whether the `summary.json` write succeeds
is an input (`writeOk`): the script catches the write exception and proceeds
to `sys.exit` regardless. -/
def runCheckSlas (th : Thresholds) (fileExists : Bool) (rows : List Row)
    (writeOk : Bool) : RunResult :=
  if fileExists = false then RunResult.sourceNotFound
  else
    match runLoop rows with
    | none => RunResult.crash
    | some a =>
      if a.total_samples = 0 then RunResult.noSamples
      else
        match mkReport th a with
        | none => RunResult.crash
        | some rep => RunResult.done rep writeOk

/-- The process exit status: `sys.exit(0 if slas_passed else 1)` on the normal
path, `sys.exit(1)` for the two fatal errors, and status 1 for an uncaught
Python exception. -/
def exitCodeOf : RunResult → Nat
  | RunResult.done rep _ => if rep.sla_passed then 0 else 1
  | _ => 1

/-- Whether a `summary.json` artifact was produced. -/
def summaryWrittenOf : RunResult → Bool
  | RunResult.done _ w => w
  | _ => false

/-- The report of a completed run, when one exists. -/
def reportOf : RunResult → Option SlaReport
  | RunResult.done rep _ => some rep
  | _ => none

/-- The sample rows whose success flag is not (case-insensitively) `"true"` —
the rows the loop counts into `total_errors`. -/
def koCount (rows : List Row) : Nat :=
  rows.countP (fun r => decide (pyLower (rowSuccess r) ≠ "true"))

/-- Modelled from the spec (§4.1 step 4), for comparison with the script's
`percentile`: the element of the ascending-sorted latency sequence at index
`round(p * (count - 1))` clamped into `[0, count - 1]`, not interpolated. -/
def specPercentile (l : List Int) (p : ℚ) : ℚ :=
  let s := sortAsc l
  let n := l.length
  let idx := min (max (pyRound (p * ((n : ℚ) - 1))) 0) ((n : Int) - 1)
  ((s.getD idx.toNat 0 : Int) : ℚ)

/-- The reference scenario of the spec (§8): four successful samples with
`elapsed = [100, 200, 300, 100]` and `timeStamp = [0, 100, 300, 600]`. -/
def refRows : List Row :=
  [ { success := some "true", elapsed := some "100", timeStamp := some "0",
      responseCode := some "200" },
    { success := some "true", elapsed := some "200", timeStamp := some "100",
      responseCode := some "200" },
    { success := some "true", elapsed := some "300", timeStamp := some "300",
      responseCode := some "200" },
    { success := some "true", elapsed := some "100", timeStamp := some "600",
      responseCode := some "200" } ]

/-- The aggregate the loop reaches on `refRows`. -/
def refAgg : Agg :=
  { total_samples := 4, total_errors := 0, total_latency := 700
    min_start_time := some 0, max_end_time := some 700
    http_500 := 0, latencies_ms := [100, 200, 300, 100] }

/-- A row whose `elapsed` field holds the non-numeric text `"abc"`. -/
def badElapsedRow : Row :=
  { success := some "true", elapsed := some "abc", timeStamp := some "0",
    responseCode := some "200" }

/-- A row whose `elapsed` and `timeStamp` columns are absent altogether. -/
def missingFieldsRow : Row :=
  { success := some "true", elapsed := none, timeStamp := none,
    responseCode := some "200" }

/-- A successful sample that nonetheless answered with HTTP 503. -/
def row503 (es ts : String) : Row :=
  { success := some "true", elapsed := some es, timeStamp := some ts,
    responseCode := some "503" }

end CheckSlas

namespace CheckSlas

/-- `pyRound` never goes below the floor. -/
theorem floor_le_pyRound (q : ℚ) : ⌊q⌋ ≤ pyRound q := by
  unfold pyRound
  split_ifs <;> omega

/-- `pyRound` never goes above the floor plus one. -/
theorem pyRound_le_floor_add_one (q : ℚ) : pyRound q ≤ ⌊q⌋ + 1 := by
  unfold pyRound
  split_ifs <;> omega

/-- Rounding half to even moves a value up by at most one half. -/
theorem pyRound_le (q : ℚ) : (pyRound q : ℚ) ≤ q + 1/2 := by
  have hfl : (⌊q⌋ : ℚ) ≤ q := Int.floor_le q
  unfold pyRound
  split_ifs with h1 h2 h3 <;> push_cast <;> linarith

/-- `pyRound` of a non-negative value is non-negative. -/
theorem pyRound_nonneg {q : ℚ} (h : 0 ≤ q) : 0 ≤ pyRound q := by
  have h1 : 0 ≤ ⌊q⌋ := Int.floor_nonneg.mpr h
  have h2 := floor_le_pyRound q
  omega

/-- Half-to-even rounding is monotone. -/
theorem pyRound_mono {q r : ℚ} (h : q ≤ r) : pyRound q ≤ pyRound r := by
  have hf : ⌊q⌋ ≤ ⌊r⌋ := Int.floor_mono h
  rcases lt_or_eq_of_le hf with hlt | heq
  · have h1 := pyRound_le_floor_add_one q
    have h2 := floor_le_pyRound r
    omega
  · unfold pyRound
    rw [heq]
    have hq : q - (⌊r⌋ : ℚ) ≤ r - (⌊r⌋ : ℚ) := by linarith
    split_ifs <;> first | omega | linarith

/-- The percentile subscript `int(round(p * (n - 1)))` stays inside
`[0, n - 1]` whenever `p ∈ [0, 1]` and the collection is non-empty. -/
theorem pyRound_idx_bounds {n : ℕ} (hn : 1 ≤ n) {p : ℚ} (h0 : 0 ≤ p) (h1 : p ≤ 1) :
    0 ≤ pyRound (p * ((n : ℚ) - 1)) ∧ pyRound (p * ((n : ℚ) - 1)) ≤ (n : ℤ) - 1 := by
  have hn1 : (0 : ℚ) ≤ (n : ℚ) - 1 := by
    have hcast : (1 : ℚ) ≤ (n : ℚ) := by exact_mod_cast hn
    linarith
  have hx0 : 0 ≤ p * ((n : ℚ) - 1) := mul_nonneg h0 hn1
  refine ⟨pyRound_nonneg hx0, ?_⟩
  have hx1 : p * ((n : ℚ) - 1) ≤ (n : ℚ) - 1 := by nlinarith
  have h2 := pyRound_le (p * ((n : ℚ) - 1))
  have h3 : (pyRound (p * ((n : ℚ) - 1)) : ℚ) < (n : ℚ) := by linarith
  have h4 : pyRound (p * ((n : ℚ) - 1)) < (n : ℤ) := by exact_mod_cast h3
  omega

/-- Sorting does not change the length of the latency list. -/
theorem sortAsc_length (l : List Int) : (sortAsc l).length = l.length :=
  (List.perm_insertionSort (fun x y => x ≤ y) l).length_eq

/-- `sortAsc` produces an ascending list. -/
theorem sortAsc_sorted (l : List Int) : List.Sorted (fun x y => x ≤ y) (sortAsc l) :=
  List.sorted_insertionSort (fun x y => x ≤ y) l

/-- On a non-empty list and `p ∈ [0, 1]`, the percentile subscript is in range
and `percentile` returns exactly the element there. -/
theorem percentile_eq_get (s : List Int) (p : ℚ) (hs : s.length ≠ 0)
    (h0 : 0 ≤ p) (h1 : p ≤ 1) :
    ∃ hlt : (pyRound (p * ((s.length : ℚ) - 1))).toNat < s.length,
      percentile s p
        = some ((s.get ⟨(pyRound (p * ((s.length : ℚ) - 1))).toNat, hlt⟩ : ℤ) : ℚ) := by
  obtain ⟨hge, hle⟩ := pyRound_idx_bounds (Nat.one_le_iff_ne_zero.mpr hs) h0 h1
  have hlt : (pyRound (p * ((s.length : ℚ) - 1))).toNat < s.length := by omega
  refine ⟨hlt, ?_⟩
  unfold percentile pyListGet
  rw [if_neg hs, if_pos hge, List.get?_eq_get hlt]
  rfl

end CheckSlas

namespace CheckSlas

/-- One loop step, when both numeric fields parse, performs exactly the
counter updates of the source. -/
theorem step_eq_some {a : Agg} {r : Row} {e t : ℤ}
    (he : rowElapsed r = some e) (ht : rowTimeStamp r = some t) :
    step a r = some
      { total_samples := a.total_samples + 1
        total_latency := a.total_latency + e
        latencies_ms := a.latencies_ms ++ [e]
        min_start_time := some (match a.min_start_time with
          | none => t
          | some m => if t < m then t else m)
        max_end_time := some (match a.max_end_time with
          | none => t + e
          | some m => if t + e > m then t + e else m)
        total_errors :=
          if pyLower (rowSuccess r) ≠ "true" then a.total_errors + 1 else a.total_errors
        http_500 :=
          if pyStartsWith (rowResponseCode r) "5" then a.http_500 + 1 else a.http_500 } := by
  unfold step
  rw [he, ht]

/-- One loop step aborts (uncaught `ValueError`) exactly when a numeric field
fails to parse. -/
theorem step_eq_none {a : Agg} {r : Row}
    (h : rowElapsed r = none ∨ rowTimeStamp r = none) : step a r = none := by
  unfold step
  rcases h with h | h
  · cases ht : rowTimeStamp r <;> rw [h]
  · cases he : rowElapsed r <;> rw [h]

/-- Loop invariant: from any starting state, a completed pass over `rows` adds
`rows.length` samples and latencies and counts exactly the rows whose success
flag is not `"true"` (case-insensitively) as errors. -/
theorem foldlM_step_counts :
    ∀ (rows : List Row) (a b : Agg), List.foldlM step a rows = some b →
      b.total_samples = a.total_samples + rows.length ∧
      b.total_errors = a.total_errors + koCount rows ∧
      b.latencies_ms.length = a.latencies_ms.length + rows.length := by
  intro rows
  induction rows with
  | nil =>
    intro a b h
    rw [List.foldlM_nil] at h
    injection h with h
    subst h
    simp [koCount]
  | cons r rs ih =>
    intro a b h
    rw [List.foldlM_cons] at h
    cases he : rowElapsed r with
    | none =>
      rw [step_eq_none (Or.inl he)] at h
      cases h
    | some e =>
      cases ht : rowTimeStamp r with
      | none =>
        rw [step_eq_none (Or.inr ht)] at h
        cases h
      | some t =>
        rw [step_eq_some he ht] at h
        simp only [Option.bind_eq_bind, Option.some_bind] at h
        obtain ⟨h1, h2, h3⟩ := ih _ _ h
        refine ⟨?_, ?_, ?_⟩
        · simp at h1
          simp only [List.length_cons]
          omega
        · rw [h2]
          simp only [koCount, List.countP_cons]
          by_cases hko : pyLower (rowSuccess r) = "true" <;> simp [hko] <;> omega
        · simp at h3
          simp only [List.length_cons]
          omega

/-- A row whose `elapsed` or `timeStamp` text does not parse as an integer
makes the whole loop abort, wherever the row sits in the input. -/
theorem foldlM_step_none :
    ∀ (rows : List Row) (a : Agg) (r : Row), r ∈ rows →
      (rowElapsed r = none ∨ rowTimeStamp r = none) →
      List.foldlM step a rows = none := by
  intro rows
  induction rows with
  | nil =>
    intro a r hr
    cases hr
  | cons x xs ih =>
    intro a r hr hbad
    rw [List.foldlM_cons]
    rcases List.mem_cons.mp hr with rfl | hr'
    · rw [step_eq_none hbad]
      rfl
    · cases hx : step a x with
      | none => rfl
      | some a' =>
        simp only [Option.bind_eq_bind, Option.some_bind]
        exact ih a' r hr' hbad

end CheckSlas

namespace CheckSlas

/-- Counters after a completed loop run from the initial state. -/
theorem runLoop_counts {rows : List Row} {a : Agg} (h : runLoop rows = some a) :
    a.total_samples = rows.length ∧
    a.total_errors = koCount rows ∧
    a.latencies_ms.length = rows.length := by
  obtain ⟨h1, h2, h3⟩ := foldlM_step_counts rows initAgg a h
  simp [initAgg] at h1 h2 h3
  exact ⟨h1, h2, h3⟩

/-- Unfolding of a successful `mkReport`: every field of the report in terms
of the final aggregate and the two percentile values. -/
theorem mkReport_eq_some {th : Thresholds} {a : Agg} {rep : SlaReport}
    (h : mkReport th a = some rep) :
    ∃ v90 v95,
      percentile (sortAsc a.latencies_ms) (9/10) = some v90 ∧
      percentile (sortAsc a.latencies_ms) (19/20) = some v95 ∧
      rep = { samples_total := a.total_samples
              samples_ok := a.total_samples - a.total_errors
              samples_ko := a.total_errors
              http_500 := a.http_500
              error_rate := errorRateOf a
              avg_latency := avgLatencyOf a
              duration_s := durationSOf a
              tps := tpsOf a
              p90 := v90
              p95 := v95
              error_pct := round2 (errorRateOf a)
              tps_rounded := round2 (tpsOf a)
              avg_rt_ms := round2 (avgLatencyOf a)
              p90_rt_ms := round2 v90
              p95_rt_ms := round2 v95
              sla_passed :=
                slaPassedCalc th a.http_500 (errorRateOf a) (avgLatencyOf a) (tpsOf a)
              sla_reasons :=
                slaReasonsCalc th a.http_500 (errorRateOf a) (avgLatencyOf a) (tpsOf a) } := by
  simp only [mkReport] at h
  cases h90 : percentile (sortAsc a.latencies_ms) (9/10) with
  | none =>
    rw [h90] at h
    cases h95 : percentile (sortAsc a.latencies_ms) (19/20) <;> rw [h95] at h <;> cases h
  | some v90 =>
    rw [h90] at h
    cases h95 : percentile (sortAsc a.latencies_ms) (19/20) with
    | none =>
      rw [h95] at h
      cases h
    | some v95 =>
      rw [h95] at h
      injection h with h
      exact ⟨v90, v95, rfl, rfl, h.symm⟩

/-- The sequential falsification of the four rules computes exactly the
conjunction of the four (inclusive) threshold conditions. -/
theorem slaPassedCalc_eq_true_iff (th : Thresholds) (h5 : ℕ) (er av tp : ℚ) :
    slaPassedCalc th h5 er av tp = true ↔
      h5 = 0 ∧ er ≤ th.max_error_rate_total ∧ av ≤ (th.max_avg_latency : ℚ) ∧
        (th.min_tps : ℚ) ≤ tp := by
  simp only [slaPassedCalc]
  split_ifs with hTps hAvg hEr hHttp
  · simp only [false_iff]
    rintro ⟨-, -, -, hd⟩
    exact absurd hd (not_le.mpr hTps)
  · simp only [false_iff]
    rintro ⟨-, -, hc, -⟩
    exact absurd hc (not_le.mpr hAvg)
  · simp only [false_iff]
    rintro ⟨-, hb, -, -⟩
    exact absurd hb (not_le.mpr hEr)
  · simp only [false_iff]
    rintro ⟨ha, -, -, -⟩
    omega
  · simp only [true_iff]
    exact ⟨by omega, le_of_not_lt hEr, le_of_not_lt hAvg, le_of_not_lt hTps⟩

/-- A positive 5xx count forces a failing verdict whatever the thresholds and
whatever the other metrics are. -/
theorem slaPassedCalc_eq_false_of_http {h5 : ℕ} (h : 0 < h5)
    (th : Thresholds) (er av tp : ℚ) : slaPassedCalc th h5 er av tp = false := by
  simp only [slaPassedCalc]
  split_ifs <;> first | rfl | omega

/-- With at least one retained latency, the percentile subscripts are in range
and `mkReport` always produces a report. -/
theorem mkReport_isSome (th : Thresholds) (a : Agg) (hlat : a.latencies_ms ≠ []) :
    (mkReport th a).isSome = true := by
  have hs : (sortAsc a.latencies_ms).length ≠ 0 := by
    rw [sortAsc_length]
    simpa [List.length_eq_zero] using hlat
  obtain ⟨hlt90, h90⟩ := percentile_eq_get (sortAsc a.latencies_ms) (9/10) hs
    (by norm_num) (by norm_num)
  obtain ⟨hlt95, h95⟩ := percentile_eq_get (sortAsc a.latencies_ms) (19/20) hs
    (by norm_num) (by norm_num)
  simp only [mkReport]
  rw [h90, h95]
  rfl

end CheckSlas

namespace CheckSlas

/-- C1 counterexample: on the concrete one-row input whose `elapsed` field
holds the non-numeric text `"abc"`, the evaluation aborts (uncaught
`ValueError`): the loop produces no aggregate at all, the sample is never
counted, and the run ends in a crash instead of a report. -/
theorem c1_nonnumeric_elapsed_crashes_cex :
    runLoop [badElapsedRow] = none ∧
    runCheckSlas defaultThresholds true [badElapsedRow] true = RunResult.crash := by
  constructor <;> decide

/-- C1 (amended): a sample whose `elapsed` or `timeStamp` field holds text
that does not parse as an integer makes the whole evaluation abort with an
uncaught `ValueError` — the sample is not counted and no aggregation
completes; only an *absent* `elapsed`/`timeStamp` column is coerced to the
default 0, with the sample still counted, zero added to the latency sum and
`0` appended to the latency list. -/
theorem c1_nonnumeric_aborts_missing_defaults :
    (∀ (rows : List Row) (r : Row), r ∈ rows →
      (rowElapsed r = none ∨ rowTimeStamp r = none) →
      runLoop rows = none ∧
      runCheckSlas defaultThresholds true rows true = RunResult.crash) ∧
    (∀ (a b : Agg) (r : Row), r.elapsed = none → r.timeStamp = none →
      step a r = some b →
      b.total_samples = a.total_samples + 1 ∧
      b.total_latency = a.total_latency ∧
      b.latencies_ms = a.latencies_ms ++ [0]) := by
  constructor
  · intro rows r hr hbad
    have hloop : runLoop rows = none := foldlM_step_none rows initAgg r hr hbad
    refine ⟨hloop, ?_⟩
    simp [runCheckSlas, hloop]
  · intro a b r he ht hstep
    have he' : rowElapsed r = some 0 := by simp [rowElapsed, he]
    have ht' : rowTimeStamp r = some 0 := by simp [rowTimeStamp, ht]
    rw [step_eq_some he' ht'] at hstep
    injection hstep with hstep
    subst hstep
    refine ⟨rfl, by simp, rfl⟩

/-- C1 witness: applying the amended abort statement to a concrete one-row
input whose `timeStamp` field holds the non-numeric text `"xyz"`. -/
theorem c1_nonnumeric_aborts_missing_defaults_witness :
    runLoop [{ success := some "true", elapsed := some "5",
               timeStamp := some "xyz", responseCode := some "200" }] = none ∧
    runCheckSlas defaultThresholds true
      [{ success := some "true", elapsed := some "5",
         timeStamp := some "xyz", responseCode := some "200" }] true
      = RunResult.crash :=
  c1_nonnumeric_aborts_missing_defaults.1 _ _ (List.mem_singleton.mpr rfl)
    (Or.inr (by decide))

/-- C2: on any non-empty latency collection and percentile fraction
`p ∈ [0, 1]`, the script's `percentile` over the ascending-sorted sequence
returns exactly the element at index `round(p * (n - 1))` clamped into
`[0, n - 1]` — the spec-side `specPercentile`, with no interpolation — and on
a one-element collection every percentile returns that single value. -/
theorem c2_percentile_nearest_rank (l : List Int) (p : ℚ)
    (hl : l ≠ []) (h0 : 0 ≤ p) (h1 : p ≤ 1) :
    percentile (sortAsc l) p = some (specPercentile l p) ∧
    (∀ x : ℤ, l = [x] → percentile (sortAsc l) p = some ((x : ℤ) : ℚ)) := by
  have hlen : (sortAsc l).length = l.length := sortAsc_length l
  have hl0 : l.length ≠ 0 := by simpa [List.length_eq_zero] using hl
  have hne : (sortAsc l).length ≠ 0 := by rw [hlen]; exact hl0
  obtain ⟨hlt, hget⟩ := percentile_eq_get (sortAsc l) p hne h0 h1
  have hn1 : 1 ≤ l.length := Nat.one_le_iff_ne_zero.mpr hl0
  obtain ⟨hge', hle'⟩ := pyRound_idx_bounds hn1 h0 h1
  have hidx : pyRound (p * (((sortAsc l).length : ℚ) - 1))
      = pyRound (p * ((l.length : ℚ) - 1)) := by rw [hlen]
  constructor
  · rw [hget]
    congr 1
    simp only [specPercentile]
    rw [max_eq_left hge', min_eq_left hle', List.getD_eq_get?, ← hidx,
      List.get?_eq_get hlt]
    rfl
  · intro x hx
    subst hx
    have hsx : sortAsc [x] = [x] := by
      simp [sortAsc, List.insertionSort, List.orderedInsert]
    rw [hsx]
    simp [percentile, pyListGet,
      show pyRound (0 : ℚ) = 0 from by unfold pyRound; norm_num]

/-- C2 witness: the nearest-rank equation evaluated on the latency collection
`[5, 1, 2]` at the fraction `3/4`. -/
theorem c2_percentile_nearest_rank_witness :
    percentile (sortAsc [5, 1, 2]) (3/4) = some (specPercentile [5, 1, 2] (3/4)) :=
  (c2_percentile_nearest_rank [5, 1, 2] (3/4) (by decide) (by norm_num)
    (by norm_num)).1

/-- C4: on the empty input the evaluation stops at the `total_samples == 0`
guard before any metric division: the outcome is `NoSamples`, the process
exit status is 1 and no summary artifact is written — for every threshold
configuration and whether or not a summary write would have succeeded. -/
theorem c4_empty_input_no_samples :
    ∀ (th : Thresholds) (w : Bool),
      runCheckSlas th true [] w = RunResult.noSamples ∧
      exitCodeOf (runCheckSlas th true [] w) = 1 ∧
      summaryWrittenOf (runCheckSlas th true [] w) = false := by
  intro th w
  exact ⟨rfl, rfl, rfl⟩

/-- C4 witness: the `NoSamples` outcome on the empty input under the default
thresholds. -/
theorem c4_empty_input_no_samples_witness :
    runCheckSlas defaultThresholds true [] true = RunResult.noSamples ∧
    exitCodeOf (runCheckSlas defaultThresholds true [] true) = 1 ∧
    summaryWrittenOf (runCheckSlas defaultThresholds true [] true) = false :=
  c4_empty_input_no_samples defaultThresholds true

end CheckSlas

namespace CheckSlas

/-- C3: for every completed evaluation the verdict is true exactly when all
four rules hold — `http_500 = 0` (strict, threshold-independent),
`error_rate ≤ maxErrorRatePct`, `avg_latency ≤ maxAvgLatencyMs` and
`tps ≥ minTps`, all inclusive; in particular a run made of one sample with
`responseCode = "503"` and `success = "true"` yields `http_500 = 1`, a failing
verdict and exit status 1 whatever the thresholds and the other metrics. -/
theorem c3_verdict_is_conjunction :
    (∀ (th : Thresholds) (a : Agg) (rep : SlaReport), mkReport th a = some rep →
      (rep.sla_passed = true ↔
        rep.http_500 = 0 ∧ rep.error_rate ≤ th.max_error_rate_total ∧
        rep.avg_latency ≤ (th.max_avg_latency : ℚ) ∧ (th.min_tps : ℚ) ≤ rep.tps)) ∧
    (∀ (th : Thresholds) (es ts : String) (e t : ℤ) (w : Bool),
      pyParseInt es = some e → pyParseInt ts = some t →
      (reportOf (runCheckSlas th true [row503 es ts] w)).map SlaReport.http_500
          = some 1 ∧
      (reportOf (runCheckSlas th true [row503 es ts] w)).map SlaReport.sla_passed
          = some false ∧
      exitCodeOf (runCheckSlas th true [row503 es ts] w) = 1) := by
  constructor
  · intro th a rep h
    obtain ⟨v90, v95, h90, h95, hrepeq⟩ := mkReport_eq_some h
    subst hrepeq
    exact slaPassedCalc_eq_true_iff th a.http_500 (errorRateOf a) (avgLatencyOf a)
      (tpsOf a)
  · intro th es ts e t w hes hts
    have he' : rowElapsed (row503 es ts) = some e := by simp [rowElapsed, row503, hes]
    have ht' : rowTimeStamp (row503 es ts) = some t := by
      simp [rowTimeStamp, row503, hts]
    have hsucc : pyLower (rowSuccess (row503 es ts)) = "true" := by
      have hx : rowSuccess (row503 es ts) = "true" := rfl
      rw [hx]
      decide
    have hcode : pyStartsWith (rowResponseCode (row503 es ts)) "5" = true := by
      have hx : rowResponseCode (row503 es ts) = "503" := rfl
      rw [hx]
      decide
    have hloop : runLoop [row503 es ts]
        = some (⟨1, 0, e, some t, some (t + e), 1, [e]⟩ : Agg) := by
      unfold runLoop
      rw [List.foldlM_cons, step_eq_some he' ht']
      simp [initAgg, hsucc, hcode]
    have hsome :
        (mkReport th (⟨1, 0, e, some t, some (t + e), 1, [e]⟩ : Agg)).isSome
          = true :=
      mkReport_isSome th _ (by simp)
    obtain ⟨rep2, hrep2⟩ := Option.isSome_iff_exists.mp hsome
    obtain ⟨v90, v95, h90, h95, hrepeq⟩ := mkReport_eq_some hrep2
    have hrun : runCheckSlas th true [row503 es ts] w = RunResult.done rep2 w := by
      simp [runCheckSlas, hloop, hrep2]
    have hhttp : rep2.http_500 = 1 := by rw [hrepeq]
    have hpass : rep2.sla_passed = false := by
      rw [hrepeq]
      exact slaPassedCalc_eq_false_of_http one_pos th _ _ _
    rw [hrun]
    simp [reportOf, exitCodeOf, hhttp, hpass]

/-- C3 witness: the failing verdict of the one-sample 503 run with
`elapsed = "0"`, `timeStamp = "0"` under the default thresholds. -/
theorem c3_verdict_is_conjunction_witness :
    (reportOf (runCheckSlas defaultThresholds true [row503 "0" "0"] true)).map
        SlaReport.http_500 = some 1 ∧
    (reportOf (runCheckSlas defaultThresholds true [row503 "0" "0"] true)).map
        SlaReport.sla_passed = some false ∧
    exitCodeOf (runCheckSlas defaultThresholds true [row503 "0" "0"] true) = 1 :=
  c3_verdict_is_conjunction.2 defaultThresholds "0" "0" 0 0 true (by decide)
    (by decide)

end CheckSlas

namespace CheckSlas

/-- C5: on the four-sample reference input (`elapsed = [100,200,300,100]`, all
successful, `responseCode = "200"`, `timeStamp = [0,100,300,600]`) the
evaluation reaches `totalSamples = 4`, `error_pct = 0`, `avg_rt_ms = 175`,
`minStartTime = 0`, `maxEndTime = 700`, `durationS = 0.7`, `tps = 40/7`
(5.71 after rounding), `p90 = p95 = 300`, a passing verdict under the default
thresholds, and exit status 0. -/
theorem c5_reference_scenario :
    runLoop refRows = some refAgg ∧
    refAgg.min_start_time = some 0 ∧ refAgg.max_end_time = some 700 ∧
    errorRateOf refAgg = 0 ∧ avgLatencyOf refAgg = 175 ∧
    durationSOf refAgg = 7/10 ∧ tpsOf refAgg = 40/7 ∧
    (reportOf (runCheckSlas defaultThresholds true refRows true)).map
        (fun rep => (rep.samples_total, rep.error_pct, rep.avg_rt_ms, rep.p90,
          rep.p95, rep.tps_rounded, rep.sla_passed))
      = some (4, 0, 175, 300, 300, 571/100, true) ∧
    exitCodeOf (runCheckSlas defaultThresholds true refRows true) = 0 := by
  have hagg : runLoop refRows = some refAgg := by decide
  have her : errorRateOf refAgg = 0 := by norm_num [errorRateOf, refAgg]
  have hav : avgLatencyOf refAgg = 175 := by norm_num [avgLatencyOf, refAgg]
  have hds : durationSOf refAgg = 7/10 := by
    norm_num [durationSOf, durationMsOf, refAgg]
  have htps : tpsOf refAgg = 40/7 := by
    norm_num [tpsOf, durationSOf, durationMsOf, refAgg]
  have hsorted : sortAsc refAgg.latencies_ms = [100, 100, 200, 300] := by decide
  have hp3 : pyRound ((9:ℚ) / 10 * (4 - 1)) = 3 := by unfold pyRound; norm_num
  have hp3' : pyRound ((19:ℚ) / 20 * (4 - 1)) = 3 := by unfold pyRound; norm_num
  have h90 : percentile (sortAsc refAgg.latencies_ms) (9/10) = some 300 := by
    rw [hsorted]
    simp [percentile, pyListGet, hp3]
  have h95 : percentile (sortAsc refAgg.latencies_ms) (19/20) = some 300 := by
    rw [hsorted]
    simp [percentile, pyListGet, hp3']
  have hsome : (mkReport defaultThresholds refAgg).isSome = true :=
    mkReport_isSome _ _ (by decide)
  obtain ⟨rep, hrep⟩ := Option.isSome_iff_exists.mp hsome
  obtain ⟨v90, v95, h90', h95', hrepeq⟩ := mkReport_eq_some hrep
  rw [h90] at h90'
  rw [h95] at h95'
  injection h90' with h90'
  injection h95' with h95'
  subst h90'
  subst h95'
  have hr0 : round2 (0:ℚ) = 0 := by
    have h : pyRound (0:ℚ) = 0 := by unfold pyRound; norm_num
    norm_num [round2, h]
  have hr175 : round2 (175:ℚ) = 175 := by
    have h : pyRound (17500:ℚ) = 17500 := by unfold pyRound; norm_num
    norm_num [round2, h]
  have hr300 : round2 (300:ℚ) = 300 := by
    have h : pyRound (30000:ℚ) = 30000 := by unfold pyRound; norm_num
    norm_num [round2, h]
  have hrtps : round2 ((40:ℚ)/7) = 571/100 := by
    have h : pyRound ((4000:ℚ)/7) = 571 := by unfold pyRound; norm_num
    norm_num [round2, h]
  have hpassC : slaPassedCalc defaultThresholds 0 0 175 ((40:ℚ)/7) = true := by
    simp only [slaPassedCalc, defaultThresholds]
    norm_num
  have hpass : rep.sla_passed = true := by
    rw [hrepeq]
    show slaPassedCalc defaultThresholds refAgg.http_500 (errorRateOf refAgg)
      (avgLatencyOf refAgg) (tpsOf refAgg) = true
    rw [her, hav, htps, show refAgg.http_500 = 0 from rfl]
    exact hpassC
  have hrun : runCheckSlas defaultThresholds true refRows true
      = RunResult.done rep true := by
    simp [runCheckSlas, hagg, hrep, show refAgg.total_samples ≠ 0 from by decide]
  refine ⟨hagg, rfl, rfl, her, hav, hds, htps, ?_, ?_⟩
  · rw [hrun]
    simp only [reportOf, Option.map_some']
    rw [hrepeq]
    simp only [her, hav, htps, show refAgg.http_500 = 0 from rfl, hr0, hr175,
      hr300, hrtps, hpassC]
    norm_num [refAgg]
  · rw [hrun]
    simp [exitCodeOf, hpass]


end CheckSlas

namespace CheckSlas

/-- C6: a run that evaluates to completion exits with status 0 exactly when
the verdict passed and 1 when it failed, and a failing `summary.json` write
does not alter the exit status (only the recorded write flag differs); the
fatal outcomes — source file absent, zero samples — always exit with
status 1. -/
theorem c6_exit_status_mapping :
    (∀ (th : Thresholds) (rows : List Row) (a : Agg) (w : Bool) (rep : SlaReport),
      runLoop rows = some a → a.total_samples ≠ 0 → mkReport th a = some rep →
      runCheckSlas th true rows w = RunResult.done rep w ∧
      exitCodeOf (runCheckSlas th true rows w)
        = (if rep.sla_passed then 0 else 1) ∧
      summaryWrittenOf (runCheckSlas th true rows w) = w) ∧
    (∀ (th : Thresholds) (rows : List Row) (a : Agg) (w w' : Bool),
      runLoop rows = some a → a.total_samples ≠ 0 →
      exitCodeOf (runCheckSlas th true rows w)
        = exitCodeOf (runCheckSlas th true rows w')) ∧
    (∀ (th : Thresholds) (rows : List Row) (w : Bool),
      exitCodeOf (runCheckSlas th false rows w) = 1) ∧
    (∀ (th : Thresholds) (w : Bool),
      exitCodeOf (runCheckSlas th true [] w) = 1) := by
  refine ⟨?_, ?_, ?_, ?_⟩
  · intro th rows a w rep hl hn hmk
    have hrun : runCheckSlas th true rows w = RunResult.done rep w := by
      simp [runCheckSlas, hl, hn, hmk]
    rw [hrun]
    exact ⟨rfl, rfl, rfl⟩
  · intro th rows a w w' hl hn
    cases hmk : mkReport th a with
    | none => simp [runCheckSlas, hl, hn, hmk, exitCodeOf]
    | some rep => simp [runCheckSlas, hl, hn, hmk, exitCodeOf]
  · intro th rows w
    rfl
  · intro th w
    rfl

/-- C7: for every non-empty input that completes the loop,
`samples_ok + samples_ko = samples_total`, and `samples_ko` is exactly the
number of rows whose success flag is not case-insensitively `"true"`. -/
theorem c7_ok_ko_partition :
    ∀ (th : Thresholds) (rows : List Row) (a : Agg),
      runLoop rows = some a → rows ≠ [] →
      a.total_errors ≤ a.total_samples ∧
      (a.total_samples - a.total_errors) + a.total_errors = a.total_samples ∧
      a.total_errors = koCount rows ∧
      (mkReport th a).map
          (fun rep => (rep.samples_ok + rep.samples_ko, rep.samples_ko))
        = (mkReport th a).map (fun rep => (rep.samples_total, koCount rows)) := by
  intro th rows a hl hne
  obtain ⟨h1, h2, h3⟩ := runLoop_counts hl
  have hle : a.total_errors ≤ a.total_samples := by
    rw [h1, h2]
    exact List.countP_le_length _
  refine ⟨hle, by omega, h2, ?_⟩
  cases hmk : mkReport th a with
  | none => rfl
  | some rep =>
    obtain ⟨v90, v95, h90, h95, hrepeq⟩ := mkReport_eq_some hmk
    subst hrepeq
    simp only [Option.map_some', Option.some.injEq, Prod.mk.injEq]
    exact ⟨by omega, h2⟩

/-- C8: on every non-empty latency collection the computed p95 is at least
the computed p90 — monotonicity of the nearest-rank percentile in the
fraction over the sorted sequence. -/
theorem c8_p95_ge_p90 :
    ∀ (l : List Int) (v90 v95 : ℚ), l ≠ [] →
      percentile (sortAsc l) (9/10) = some v90 →
      percentile (sortAsc l) (19/20) = some v95 →
      v90 ≤ v95 := by
  intro l v90 v95 hl h90 h95
  have hlen : (sortAsc l).length = l.length := sortAsc_length l
  have hl0 : l.length ≠ 0 := by simpa [List.length_eq_zero] using hl
  have hne : (sortAsc l).length ≠ 0 := by rw [hlen]; exact hl0
  obtain ⟨hlt90, hget90⟩ := percentile_eq_get (sortAsc l) (9/10) hne
    (by norm_num) (by norm_num)
  obtain ⟨hlt95, hget95⟩ := percentile_eq_get (sortAsc l) (19/20) hne
    (by norm_num) (by norm_num)
  rw [hget90] at h90
  rw [hget95] at h95
  injection h90 with h90
  injection h95 with h95
  subst h90
  subst h95
  have hn1 : (0 : ℚ) ≤ ((sortAsc l).length : ℚ) - 1 := by
    have hone : 1 ≤ (sortAsc l).length := Nat.one_le_iff_ne_zero.mpr hne
    have hcast : (1 : ℚ) ≤ ((sortAsc l).length : ℚ) := by exact_mod_cast hone
    linarith
  have hmul : (9:ℚ)/10 * (((sortAsc l).length : ℚ) - 1)
      ≤ (19:ℚ)/20 * (((sortAsc l).length : ℚ) - 1) :=
    mul_le_mul_of_nonneg_right (by norm_num) hn1
  have hidx := pyRound_mono hmul
  have hfin : (⟨(pyRound ((9:ℚ)/10 * (((sortAsc l).length : ℚ) - 1))).toNat,
      hlt90⟩ : Fin (sortAsc l).length)
      ≤ ⟨(pyRound ((19:ℚ)/20 * (((sortAsc l).length : ℚ) - 1))).toNat, hlt95⟩ := by
    simp only [Fin.mk_le_mk]
    omega
  have hrel := (sortAsc_sorted l).rel_get_of_le hfin
  exact_mod_cast hrel

/-- C9: evaluation is deterministic — two runs on the same rows with the same
thresholds and write outcome produce the same result: same metric values,
same verdict, same reason strings, same exit status.  (The wall-clock
timestamp of the artifact lies outside the evaluation and is excluded.) -/
theorem c9_deterministic :
    ∀ (th : Thresholds) (fe : Bool) (rows : List Row) (w : Bool)
      (r1 r2 : RunResult),
      r1 = runCheckSlas th fe rows w → r2 = runCheckSlas th fe rows w →
      r1 = r2 ∧
      (reportOf r1).map SlaReport.sla_passed
        = (reportOf r2).map SlaReport.sla_passed ∧
      (reportOf r1).map SlaReport.sla_reasons
        = (reportOf r2).map SlaReport.sla_reasons ∧
      (reportOf r1).map (fun rep => (rep.error_pct, rep.tps_rounded,
          rep.avg_rt_ms, rep.p90_rt_ms, rep.p95_rt_ms))
        = (reportOf r2).map (fun rep => (rep.error_pct, rep.tps_rounded,
          rep.avg_rt_ms, rep.p90_rt_ms, rep.p95_rt_ms)) ∧
      exitCodeOf r1 = exitCodeOf r2 := by
  intro th fe rows w r1 r2 h1 h2
  subst h1
  subst h2
  exact ⟨rfl, rfl, rfl, rfl, rfl⟩

/-- C10: although `percentile` applies no clamping, for `p ∈ [0, 1]` on a
non-empty list the subscript `int(round(p * (n - 1)))` always lies inside
`[0, n - 1]` and the access cannot raise; and after a completed loop whose
`total_samples` guard passed the latency list is non-empty, so the `n == 0`
branch of `percentile` is unreachable and `mkReport` always succeeds. -/
theorem c10_percentile_index_safe :
    (∀ (l : List Int) (p : ℚ), l ≠ [] → 0 ≤ p → p ≤ 1 →
      0 ≤ pyRound (p * ((l.length : ℚ) - 1)) ∧
      pyRound (p * ((l.length : ℚ) - 1)) ≤ (l.length : ℤ) - 1 ∧
      (percentile l p).isSome = true) ∧
    (∀ (rows : List Row) (a : Agg), runLoop rows = some a →
      a.total_samples ≠ 0 →
      a.latencies_ms ≠ [] ∧ (sortAsc a.latencies_ms).length ≠ 0) ∧
    (∀ (th : Thresholds) (rows : List Row) (a : Agg),
      runLoop rows = some a → a.total_samples ≠ 0 →
      (mkReport th a).isSome = true) := by
  refine ⟨?_, ?_, ?_⟩
  · intro l p hl h0 h1
    have hl0 : l.length ≠ 0 := by simpa [List.length_eq_zero] using hl
    obtain ⟨hge, hle⟩ := pyRound_idx_bounds (Nat.one_le_iff_ne_zero.mpr hl0) h0 h1
    obtain ⟨hlt, hget⟩ := percentile_eq_get l p hl0 h0 h1
    refine ⟨hge, hle, ?_⟩
    rw [hget]
    rfl
  · intro rows a hl hn
    obtain ⟨h1, h2, h3⟩ := runLoop_counts hl
    have hlen : a.latencies_ms.length ≠ 0 := by omega
    refine ⟨by simpa [List.length_eq_zero] using hlen, ?_⟩
    rw [sortAsc_length]
    exact hlen
  · intro th rows a hl hn
    obtain ⟨h1, h2, h3⟩ := runLoop_counts hl
    have hlen : a.latencies_ms.length ≠ 0 := by omega
    exact mkReport_isSome th a (by simpa [List.length_eq_zero] using hlen)

/-- C6 witness: the exit-status mapping applied to the reference rows and to
the fatal outcomes. -/
theorem c6_exit_status_mapping_witness :
    exitCodeOf (runCheckSlas defaultThresholds true refRows true)
      = exitCodeOf (runCheckSlas defaultThresholds true refRows false) ∧
    exitCodeOf (runCheckSlas defaultThresholds false refRows true) = 1 ∧
    exitCodeOf (runCheckSlas defaultThresholds true [] true) = 1 :=
  ⟨c6_exit_status_mapping.2.1 defaultThresholds refRows refAgg true false
      (by decide) (by decide),
   c6_exit_status_mapping.2.2.1 defaultThresholds refRows true,
   c6_exit_status_mapping.2.2.2 defaultThresholds true⟩

/-- C7 witness: the ok/ko partition on the reference scenario. -/
theorem c7_ok_ko_partition_witness :
    refAgg.total_errors ≤ refAgg.total_samples ∧
    (refAgg.total_samples - refAgg.total_errors) + refAgg.total_errors
      = refAgg.total_samples ∧
    refAgg.total_errors = koCount refRows ∧
    (mkReport defaultThresholds refAgg).map
        (fun rep => (rep.samples_ok + rep.samples_ko, rep.samples_ko))
      = (mkReport defaultThresholds refAgg).map
        (fun rep => (rep.samples_total, koCount refRows)) :=
  c7_ok_ko_partition defaultThresholds refRows refAgg (by decide) (by decide)

/-- C8 witness: p95 and p90 on the one-element latency collection `[7]`. -/
theorem c8_p95_ge_p90_witness :
    percentile (sortAsc [7]) (9/10) = some 7 ∧
    percentile (sortAsc [7]) (19/20) = some 7 ∧ (7 : ℚ) ≤ 7 := by
  have hs : sortAsc [7] = [7] := by decide
  have hz : pyRound (0 : ℚ) = 0 := by unfold pyRound; norm_num
  have h90 : percentile (sortAsc [7]) (9/10) = some 7 := by
    rw [hs]
    simp [percentile, pyListGet, hz]
  have h95 : percentile (sortAsc [7]) (19/20) = some 7 := by
    rw [hs]
    simp [percentile, pyListGet, hz]
  exact ⟨h90, h95, c8_p95_ge_p90 [7] 7 7 (by decide) h90 h95⟩

/-- C10 witness: the subscript bounds at `p = 1/2` on `[5, 6]`, and report
construction succeeding on the reference aggregate. -/
theorem c10_percentile_index_safe_witness :
    (0 ≤ pyRound ((1/2 : ℚ) * ((([5, 6] : List Int).length : ℚ) - 1)) ∧
      pyRound ((1/2 : ℚ) * ((([5, 6] : List Int).length : ℚ) - 1))
        ≤ (([5, 6] : List Int).length : ℤ) - 1 ∧
      (percentile [5, 6] (1/2)).isSome = true) ∧
    (mkReport defaultThresholds refAgg).isSome = true :=
  ⟨c10_percentile_index_safe.1 [5, 6] (1/2) (by decide) (by norm_num)
      (by norm_num),
   c10_percentile_index_safe.2.2 defaultThresholds refRows refAgg (by decide)
      (by decide)⟩


/-- C9 witness: the determinism statement applied to the reference run. -/
theorem c9_deterministic_witness :
    runCheckSlas defaultThresholds true refRows true
      = runCheckSlas defaultThresholds true refRows true ∧
    (reportOf (runCheckSlas defaultThresholds true refRows true)).map
        SlaReport.sla_passed
      = (reportOf (runCheckSlas defaultThresholds true refRows true)).map
        SlaReport.sla_passed ∧
    (reportOf (runCheckSlas defaultThresholds true refRows true)).map
        SlaReport.sla_reasons
      = (reportOf (runCheckSlas defaultThresholds true refRows true)).map
        SlaReport.sla_reasons ∧
    (reportOf (runCheckSlas defaultThresholds true refRows true)).map
        (fun rep => (rep.error_pct, rep.tps_rounded, rep.avg_rt_ms,
          rep.p90_rt_ms, rep.p95_rt_ms))
      = (reportOf (runCheckSlas defaultThresholds true refRows true)).map
        (fun rep => (rep.error_pct, rep.tps_rounded, rep.avg_rt_ms,
          rep.p90_rt_ms, rep.p95_rt_ms)) ∧
    exitCodeOf (runCheckSlas defaultThresholds true refRows true)
      = exitCodeOf (runCheckSlas defaultThresholds true refRows true) :=
  c9_deterministic defaultThresholds true refRows true _ _ rfl rfl

end CheckSlas
